import Mathlib

/-!
Shallow embedding of the hand-rolled WebSocket engine of this repository
(`src/keti-code.js` class `SimpleWebSocket`, `src/keti-unified.js`
`parseWebSocketFrame`/`sendWebSocketMessage`/`generateAcceptKey`, and
`src/zero-code.js` `handleWebSocket`).

Bytes are modelled as `Nat` (values below 256 on real inputs); Node
`Buffer`s are `List Nat`.  JavaScript bitwise reads on bytes are mapped
to arithmetic: `x & 0x0f` is `x % 16`, `x & 0x7f` is `x % 128`, and the
truthiness test `!!(x & 0x80)` on a byte is `128 ≤ x`.  Node
`buffer.slice(a, b)` clamps to the buffer, i.e. `(drop a).take (b - a)`.
Out-of-range `buffer[i]` and `readUIntBE` reads are modelled as 0; every
theorem below only evaluates the parsers on buffers where those reads
are in range (Node would raise on an out-of-range `readUIntBE`), except
for the payload slice, whose clamping is exactly Node's behaviour.
-/

namespace WS

/-- `buffer.readUInt16BE(offset)`: two bytes, big-endian. -/
def readUInt16BE (buffer : List Nat) (offset : Nat) : Nat :=
  256 * buffer.getD offset 0 + buffer.getD (offset + 1) 0

/-- `buffer.readUInt32BE(offset)`: four bytes, big-endian. -/
def readUInt32BE (buffer : List Nat) (offset : Nat) : Nat :=
  16777216 * buffer.getD offset 0 + 65536 * buffer.getD (offset + 1) 0 +
    256 * buffer.getD (offset + 2) 0 + buffer.getD (offset + 3) 0

/-- `buffer.slice(a, b)` (clamping, as in Node). -/
def bufSlice (buffer : List Nat) (a b : Nat) : List Nat :=
  (buffer.drop a).take (b - a)

/-- The masking loop `payload[i] ^= maskKey[i % 4]` of both parsers,
with `i` the loop index. -/
def applyMask (maskKey : List Nat) : Nat → List Nat → List Nat
  | _, [] => []
  | i, b :: rest => (b ^^^ maskKey.getD (i % 4) 0) :: applyMask maskKey (i + 1) rest

/-- What one `parseFrame` call in `src/keti-code.js` does with a chunk:
return early on fewer than 2 bytes, dispatch a text payload to
`onMessage`, call `close()` on opcode 8, or fall through (no branch
taken) on any other opcode. -/
inductive FrameAction
  | needMore
  | message (payload : List Nat)
  | closeConn
  | ignored
deriving DecidableEq, Repr

/-- `SimpleWebSocket.parseFrame` (src/keti-code.js lines 76-117). -/
def parseFrame (buffer : List Nat) : FrameAction :=
  if buffer.length < 2 then .needMore
  else
    let firstByte := buffer.getD 0 0
    let opcode := firstByte % 16                -- firstByte & 0x0f
    let secondByte := buffer.getD 1 0
    let masked := 128 ≤ secondByte              -- !!(secondByte & 0x80)
    let len7 := secondByte % 128                -- secondByte & 0x7f
    let lenOff : Nat × Nat :=
      if len7 = 126 then (readUInt16BE buffer 2, 4)
      else if len7 = 127 then (readUInt32BE buffer 6, 10) -- skips high 4 bytes
      else (len7, 2)
    let payloadLength := lenOff.1
    let offset := lenOff.2
    let maskKey := if masked then bufSlice buffer offset (offset + 4) else []
    let offset2 := if masked then offset + 4 else offset
    let raw := bufSlice buffer offset2 (offset2 + payloadLength)
    let payload := if masked then applyMask maskKey 0 raw else raw
    if opcode = 1 then .message payload
    else if opcode = 8 then .closeConn
    else .ignored

/-- `parseWebSocketFrame` (src/keti-unified.js lines 888-924).  The
source computes `fin` and `opcode` but never uses them; on any complete
frame it returns the unmasked payload string (here: its bytes). -/
def parseWebSocketFrame (buffer : List Nat) : Option (List Nat) :=
  if buffer.length < 2 then none
  else
    let firstByte := buffer.getD 0 0
    let secondByte := buffer.getD 1 0
    let _fin := 128 ≤ firstByte
    let _opcode := firstByte % 16
    let masked := 128 ≤ secondByte
    let len7 := secondByte % 128
    let lenOff : Nat × Nat :=
      if len7 = 126 then (readUInt16BE buffer 2, 4)
      else if len7 = 127 then (readUInt32BE buffer 6, 10) -- offset += 8; read at offset - 4
      else (len7, 2)
    let payloadLength := lenOff.1
    let offset := lenOff.2
    let maskKey := if masked then bufSlice buffer offset (offset + 4) else []
    let offset2 := if masked then offset + 4 else offset
    let raw := bufSlice buffer offset2 (offset2 + payloadLength)
    let payload := if masked then applyMask maskKey 0 raw else raw
    some payload

/-- `SimpleWebSocket.send`'s frame construction (src/keti-code.js lines
119-144): `Buffer.concat([frame, message])` for a text message.  In the
127 branch the source writes `writeUInt32BE(0, 2)` then
`writeUInt32BE(length, 6)`; a Node buffer length is always below 2^32,
under which bound the bytes written are the ones below. -/
def sendFrame (message : List Nat) : List Nat :=
  let length := message.length
  let frame :=
    if length < 126 then [0x81, length]
    else if length < 65536 then [0x81, 126, length / 256, length % 256]
    else [0x81, 127, 0, 0, 0, 0,
          length / 16777216 % 256, length / 65536 % 256, length / 256 % 256, length % 256]
  frame ++ message

/-- Test fixture (spec §8 round-trip): turn a server frame into the
client-side equivalent by setting the mask bit of byte 1, inserting a
4-byte mask key after the length bytes, and masking the payload, as a
client would. -/
def setMaskAndKey (frame maskKey : List Nat) : List Nat :=
  match frame with
  | b0 :: b1 :: rest =>
    let ext := if b1 = 126 then 2 else if b1 = 127 then 8 else 0
    b0 :: (b1 + 128) :: (rest.take ext ++ maskKey ++ applyMask maskKey 0 (rest.drop ext))
  | other => other

/-- Test fixture: a complete masked client frame with first byte `b0`
(fin/rsv/opcode), the 7/16/64-bit length encoding chosen from the
payload length, a 4-byte mask key, and the masked payload. -/
def clientFrame (b0 : Nat) (maskKey payload : List Nat) : List Nat :=
  let length := payload.length
  let header :=
    if length < 126 then [b0, 128 + length]
    else if length < 65536 then [b0, 254, length / 256, length % 256]
    else [b0, 255, 0, 0, 0, 0,
          length / 16777216 % 256, length / 65536 % 256, length / 256 % 256, length % 256]
  header ++ maskKey ++ applyMask maskKey 0 payload

/-- Connection states of `SimpleWebSocket` (src/keti-code.js). -/
inductive WSState
  | CONNECTING
  | OPEN
  | CLOSED
deriving DecidableEq, Repr

/-!
The handshake computes `crypto.createHash('sha1').update(key + GUID)
.digest('base64')`.  Node's `crypto` is the platform's standard SHA-1
(FIPS 180) and standard base64; both are embedded here executably.
32-bit words are `Nat` reduced modulo 2^32.
-/

/-- Left-rotate a 32-bit word by `n` (for `x < 2^32`, `0 < n < 32`). -/
def rotl32 (x n : Nat) : Nat :=
  (x * 2 ^ n) % 4294967296 + x / 2 ^ (32 - n)

/-- SHA-1 round constant. -/
def sha1K (i : Nat) : Nat :=
  if i < 20 then 0x5A827999 else if i < 40 then 0x6ED9EBA1
  else if i < 60 then 0x8F1BBCDC else 0xCA62C1D6

/-- SHA-1 round function (`~b` on 32 bits is `b ^^^ 0xFFFFFFFF`). -/
def sha1F (i b c d : Nat) : Nat :=
  if i < 20 then (b &&& c) ||| ((b ^^^ 4294967295) &&& d)
  else if i < 40 then b ^^^ c ^^^ d
  else if i < 60 then (b &&& c) ||| (b &&& d) ||| (c &&& d)
  else b ^^^ c ^^^ d

/-- Group a 64-byte chunk into 16 big-endian 32-bit words. -/
def sha1Words : List Nat → List Nat
  | a :: b :: c :: d :: rest => (16777216 * a + 65536 * b + 256 * c + d) :: sha1Words rest
  | _ => []

/-- Extend 16 words to the 80-word message schedule. -/
def sha1Extend (w : List Nat) : List Nat :=
  (List.range 64).foldl (fun acc _ =>
    let n := acc.length
    acc ++ [rotl32 ((acc.getD (n - 3) 0) ^^^ (acc.getD (n - 8) 0) ^^^
                    (acc.getD (n - 14) 0) ^^^ (acc.getD (n - 16) 0)) 1]) w

/-- One SHA-1 compression of a 64-byte chunk into the running state. -/
def sha1Compress (h : Nat × Nat × Nat × Nat × Nat) (chunk : List Nat) :
    Nat × Nat × Nat × Nat × Nat :=
  let w := sha1Extend (sha1Words chunk)
  let (h0, h1, h2, h3, h4) := h
  let st := (List.range 80).foldl (fun (st : Nat × Nat × Nat × Nat × Nat) i =>
    let (a, b, c, d, e) := st
    let temp := (rotl32 a 5 + sha1F i b c d + e + sha1K i + w.getD i 0) % 4294967296
    (temp, a, rotl32 b 30, c, d)) (h0, h1, h2, h3, h4)
  ((h0 + st.1) % 4294967296, (h1 + st.2.1) % 4294967296, (h2 + st.2.2.1) % 4294967296,
   (h3 + st.2.2.2.1) % 4294967296, (h4 + st.2.2.2.2) % 4294967296)

/-- Split a byte list into 64-byte chunks. -/
def sha1ChunksAux : Nat → List Nat → List (List Nat)
  | 0, _ => []
  | _, [] => []
  | fuel + 1, x :: xs => ((x :: xs).take 64) :: sha1ChunksAux fuel ((x :: xs).drop 64)

def sha1Chunks (bytes : List Nat) : List (List Nat) :=
  sha1ChunksAux bytes.length bytes

/-- SHA-1 padding: `0x80`, zeros to 56 mod 64, 8-byte big-endian bit length. -/
def sha1Pad (msg : List Nat) : List Nat :=
  let l := msg.length
  let zeros := (119 - l % 64) % 64
  let bitLen := 8 * l
  msg ++ [0x80] ++ List.replicate zeros 0 ++
    [bitLen / 72057594037927936 % 256, bitLen / 281474976710656 % 256,
     bitLen / 1099511627776 % 256, bitLen / 4294967296 % 256,
     bitLen / 16777216 % 256, bitLen / 65536 % 256, bitLen / 256 % 256, bitLen % 256]

/-- SHA-1 digest of a byte list, as 20 bytes. -/
def sha1 (msg : List Nat) : List Nat :=
  let st := (sha1Chunks (sha1Pad msg)).foldl sha1Compress
    (0x67452301, 0xEFCDAB89, 0x98BADCFE, 0x10325476, 0xC3D2E1F0)
  [st.1, st.2.1, st.2.2.1, st.2.2.2.1, st.2.2.2.2].foldr
    (fun h acc => h / 16777216 % 256 :: h / 65536 % 256 :: h / 256 % 256 :: h % 256 :: acc) []

/-- The standard base64 alphabet. -/
def base64Chars : List Char :=
  "ABCDEFGHIJKLMNOPQRSTUVWXYZabcdefghijklmnopqrstuvwxyz0123456789+/".data

/-- Standard base64 encoding with `=` padding. -/
def base64Encode : List Nat → List Char
  | [] => []
  | [a] => [base64Chars.getD (a / 4) ' ', base64Chars.getD (a % 4 * 16) ' ', '=', '=']
  | [a, b] => [base64Chars.getD (a / 4) ' ', base64Chars.getD (a % 4 * 16 + b / 16) ' ',
               base64Chars.getD (b % 16 * 4) ' ', '=']
  | a :: b :: c :: rest =>
      base64Chars.getD (a / 4) ' ' :: base64Chars.getD (a % 4 * 16 + b / 16) ' ' ::
      base64Chars.getD (b % 16 * 4 + c / 64) ' ' :: base64Chars.getD (c % 64) ' ' ::
      base64Encode rest

/-- UTF-8 bytes of an ASCII string (all handshake inputs are ASCII, for
which code points coincide with UTF-8 bytes). -/
def utf8Ascii (s : String) : List Nat := s.data.map Char.toNat

/-- The fixed magic GUID of RFC 6455. -/
def wsMagic : String := "258EAFA5-E914-47DA-95CA-C5AB0DC85B11"

/-- `generateAcceptKey` (src/keti-code.js lines 68-74, src/keti-unified.js
lines 877-883): base64 of SHA-1 of `key + magic`. -/
def generateAcceptKey (key : String) : String :=
  String.mk (base64Encode (sha1 (utf8Ascii (key ++ wsMagic))))

/-- JavaScript coercion of `request.headers['sec-websocket-key']` inside
`key + magic` when the header is absent: `undefined + '...'` stringifies
`undefined`. -/
def headerOrUndefined : Option String → String
  | some k => k
  | none => "undefined"

/-- What the `SimpleWebSocket` constructor (src/keti-code.js lines 39-66)
writes for the upgrade and the state it reaches: it performs no check on
the key header, always writes the 101 response and always sets state
OPEN.  `handleWebSocket` in src/zero-code.js lines 2282-2301 writes the
identical response, likewise without any key check. -/
def simpleWebSocketHandshake (keyHeader : Option String) : String × WSState :=
  let acceptKey := generateAcceptKey (headerOrUndefined keyHeader)
  ("HTTP/1.1 101 Switching Protocols\r\nUpgrade: websocket\r\nConnection: Upgrade\r\nSec-WebSocket-Accept: "
     ++ acceptKey ++ "\r\n\r\n", WSState.OPEN)

/-- Observable connection state: protocol state, the frames written to
the socket so far, and whether `socket.end()` was called. -/
structure Conn where
  state : WSState
  writes : List (List Nat)
  ended : Bool
deriving DecidableEq, Repr

/-- `SimpleWebSocket.send` (src/keti-code.js lines 119-144): drops the
message unless the state is OPEN, otherwise writes one text frame. -/
def send (c : Conn) (data : List Nat) : Conn :=
  if c.state ≠ .OPEN then c
  else { c with writes := c.writes ++ [sendFrame data] }

/-- `SimpleWebSocket.close` (src/keti-code.js lines 146-152). -/
def close (c : Conn) : Conn :=
  if c.state = .CLOSED then c
  else { state := .CLOSED, writes := c.writes ++ [[0x88, 0x00]], ended := true }

/-- Spec-side rendering (claim C7 wording, spec §4.3): byte 1 = length
if length < 126; byte 1 = 126 followed by a 2-byte big-endian length if
126 ≤ length < 65536; byte 1 = 127 followed by an 8-byte big-endian
length otherwise. -/
def specLengthEncoding (length : Nat) : List Nat :=
  if length < 126 then [length]
  else if length < 65536 then [126, length / 256, length % 256]
  else [127, length / 72057594037927936 % 256, length / 281474976710656 % 256,
        length / 1099511627776 % 256, length / 4294967296 % 256,
        length / 16777216 % 256, length / 65536 % 256, length / 256 % 256, length % 256]

/-!  Helper lemmas about the masking loop. -/

theorem applyMask_length (k : List Nat) (i : Nat) (p : List Nat) :
    (applyMask k i p).length = p.length := by
  induction p generalizing i with
  | nil => rfl
  | cons b rest ih => simp [applyMask, ih]

theorem applyMask_applyMask (k : List Nat) (i : Nat) (p : List Nat) :
    applyMask k i (applyMask k i p) = p := by
  induction p generalizing i with
  | nil => rfl
  | cons b rest ih => simp [applyMask, ih, Nat.xor_cancel_right]

/-!  Decoding a complete masked client frame, one lemma per length branch. -/

theorem parseFrame_masked_small (b0 : Nat) (k p : List Nat) (hk : k.length = 4)
    (hp : p.length < 126) :
    parseFrame (b0 :: (128 + p.length) :: (k ++ applyMask k 0 p)) =
      if b0 % 16 = 1 then FrameAction.message p
      else if b0 % 16 = 8 then FrameAction.closeConn
      else FrameAction.ignored := by
  have hmod : (128 + p.length) % 128 = p.length := by omega
  have hmask : bufSlice (b0 :: (128 + p.length) :: (k ++ applyMask k 0 p)) 2 6 = k := by
    show (k ++ applyMask k 0 p).take 4 = k
    exact List.take_left' hk
  have hraw : bufSlice (b0 :: (128 + p.length) :: (k ++ applyMask k 0 p)) 6
      (6 + p.length) = applyMask k 0 p := by
    show ((k ++ applyMask k 0 p).drop 4).take (6 + p.length - 6) = applyMask k 0 p
    rw [List.drop_left' hk]
    have h : 6 + p.length - 6 = (applyMask k 0 p).length := by
      rw [applyMask_length]; omega
    rw [h]
    exact @List.take_length _ _
  unfold parseFrame
  rw [if_neg (by simp)]
  simp only [List.getD_cons_zero, List.getD_cons_succ, hmod,
    eq_false (by omega : ¬(p.length = 126)), eq_false (by omega : ¬(p.length = 127)),
    eq_true (by omega : (128:Nat) ≤ 128 + p.length), if_true, if_false,
    hmask, hraw, applyMask_applyMask]

theorem parseFrame_masked_medium (b0 : Nat) (k p : List Nat) (hk : k.length = 4)
    (hp1 : 126 ≤ p.length) (hp2 : p.length < 65536) :
    parseFrame (b0 :: 254 :: p.length / 256 :: p.length % 256 :: (k ++ applyMask k 0 p)) =
      if b0 % 16 = 1 then FrameAction.message p
      else if b0 % 16 = 8 then FrameAction.closeConn
      else FrameAction.ignored := by
  have hlen : readUInt16BE
      (b0 :: 254 :: p.length / 256 :: p.length % 256 :: (k ++ applyMask k 0 p)) 2 =
      p.length := by
    show 256 * (p.length / 256) + p.length % 256 = p.length
    omega
  have hmask : bufSlice
      (b0 :: 254 :: p.length / 256 :: p.length % 256 :: (k ++ applyMask k 0 p)) 4 8 = k := by
    show (k ++ applyMask k 0 p).take 4 = k
    exact List.take_left' hk
  have hraw : bufSlice
      (b0 :: 254 :: p.length / 256 :: p.length % 256 :: (k ++ applyMask k 0 p)) 8
      (8 + p.length) = applyMask k 0 p := by
    show ((k ++ applyMask k 0 p).drop 4).take (8 + p.length - 8) = applyMask k 0 p
    rw [List.drop_left' hk]
    have h : 8 + p.length - 8 = (applyMask k 0 p).length := by
      rw [applyMask_length]; omega
    rw [h]
    exact @List.take_length _ _
  unfold parseFrame
  rw [if_neg (by simp)]
  simp only [List.getD_cons_zero, List.getD_cons_succ,
    eq_true (by omega : (254:Nat) % 128 = 126),
    eq_true (by omega : (128:Nat) ≤ 254), if_true, if_false,
    hlen, hmask, hraw, applyMask_applyMask]

theorem parseFrame_masked_large (b0 : Nat) (k p : List Nat) (hk : k.length = 4)
    (hp1 : 65536 ≤ p.length) (hp2 : p.length < 4294967296) :
    parseFrame (b0 :: 255 :: 0 :: 0 :: 0 :: 0 ::
        p.length / 16777216 % 256 :: p.length / 65536 % 256 ::
        p.length / 256 % 256 :: p.length % 256 :: (k ++ applyMask k 0 p)) =
      if b0 % 16 = 1 then FrameAction.message p
      else if b0 % 16 = 8 then FrameAction.closeConn
      else FrameAction.ignored := by
  have hlen : readUInt32BE
      (b0 :: 255 :: 0 :: 0 :: 0 :: 0 ::
        p.length / 16777216 % 256 :: p.length / 65536 % 256 ::
        p.length / 256 % 256 :: p.length % 256 :: (k ++ applyMask k 0 p)) 6 =
      p.length := by
    show 16777216 * (p.length / 16777216 % 256) + 65536 * (p.length / 65536 % 256) +
      256 * (p.length / 256 % 256) + p.length % 256 = p.length
    omega
  have hmask : bufSlice
      (b0 :: 255 :: 0 :: 0 :: 0 :: 0 ::
        p.length / 16777216 % 256 :: p.length / 65536 % 256 ::
        p.length / 256 % 256 :: p.length % 256 :: (k ++ applyMask k 0 p)) 10 14 = k := by
    show (k ++ applyMask k 0 p).take 4 = k
    exact List.take_left' hk
  have hraw : bufSlice
      (b0 :: 255 :: 0 :: 0 :: 0 :: 0 ::
        p.length / 16777216 % 256 :: p.length / 65536 % 256 ::
        p.length / 256 % 256 :: p.length % 256 :: (k ++ applyMask k 0 p)) 14
      (14 + p.length) = applyMask k 0 p := by
    show ((k ++ applyMask k 0 p).drop 4).take (14 + p.length - 14) = applyMask k 0 p
    rw [List.drop_left' hk]
    have h : 14 + p.length - 14 = (applyMask k 0 p).length := by
      rw [applyMask_length]; omega
    rw [h]
    exact @List.take_length _ _
  unfold parseFrame
  rw [if_neg (by simp)]
  simp only [List.getD_cons_zero, List.getD_cons_succ,
    eq_false (by omega : ¬(255:Nat) % 128 = 126),
    eq_true (by omega : (255:Nat) % 128 = 127),
    eq_true (by omega : (128:Nat) ≤ 255), if_true, if_false,
    hlen, hmask, hraw, applyMask_applyMask]

/-- All three branches combined: the keti-code parser decodes any
complete masked client frame built by `clientFrame`, and dispatches only
on the opcode bits of byte 0. -/
theorem parseFrame_clientFrame (b0 : Nat) (k p : List Nat) (hk : k.length = 4)
    (hp : p.length < 4294967296) :
    parseFrame (clientFrame b0 k p) =
      if b0 % 16 = 1 then FrameAction.message p
      else if b0 % 16 = 8 then FrameAction.closeConn
      else FrameAction.ignored := by
  by_cases h1 : p.length < 126
  · have hshape : clientFrame b0 k p = b0 :: (128 + p.length) :: (k ++ applyMask k 0 p) := by
      simp [clientFrame, h1]
    rw [hshape]
    exact parseFrame_masked_small b0 k p hk h1
  · by_cases h2 : p.length < 65536
    · have hshape : clientFrame b0 k p =
          b0 :: 254 :: p.length / 256 :: p.length % 256 :: (k ++ applyMask k 0 p) := by
        simp [clientFrame, h1, h2]
      rw [hshape]
      exact parseFrame_masked_medium b0 k p hk (by omega) h2
    · have hshape : clientFrame b0 k p =
          b0 :: 255 :: 0 :: 0 :: 0 :: 0 ::
            p.length / 16777216 % 256 :: p.length / 65536 % 256 ::
            p.length / 256 % 256 :: p.length % 256 :: (k ++ applyMask k 0 p) := by
        simp [clientFrame, h1, h2]
      rw [hshape]
      exact parseFrame_masked_large b0 k p hk (by omega) hp

/-- Setting the mask bit and injecting a mask key into an encoder output
frame produces exactly the complete masked client frame with first byte
0x81. -/
theorem setMaskAndKey_sendFrame (p k : List Nat) :
    setMaskAndKey (sendFrame p) k = clientFrame 0x81 k p := by
  by_cases h1 : p.length < 126
  · simp [sendFrame, setMaskAndKey, clientFrame, h1,
      eq_false (by omega : ¬(p.length = 126)), eq_false (by omega : ¬(p.length = 127)),
      Nat.add_comm]
  · by_cases h2 : p.length < 65536
    · simp [sendFrame, setMaskAndKey, clientFrame, h1, h2]
    · simp [sendFrame, setMaskAndKey, clientFrame, h1, h2]

/-!  The same three branch lemmas for the keti-unified parser, which
returns the unmasked payload regardless of the opcode. -/

theorem parseWSF_masked_small (b0 : Nat) (k p : List Nat) (hk : k.length = 4)
    (hp : p.length < 126) :
    parseWebSocketFrame (b0 :: (128 + p.length) :: (k ++ applyMask k 0 p)) = some p := by
  have hmod : (128 + p.length) % 128 = p.length := by omega
  have hmask : bufSlice (b0 :: (128 + p.length) :: (k ++ applyMask k 0 p)) 2 6 = k := by
    show (k ++ applyMask k 0 p).take 4 = k
    exact List.take_left' hk
  have hraw : bufSlice (b0 :: (128 + p.length) :: (k ++ applyMask k 0 p)) 6
      (6 + p.length) = applyMask k 0 p := by
    show ((k ++ applyMask k 0 p).drop 4).take (6 + p.length - 6) = applyMask k 0 p
    rw [List.drop_left' hk]
    have h : 6 + p.length - 6 = (applyMask k 0 p).length := by
      rw [applyMask_length]; omega
    rw [h]
    exact @List.take_length _ _
  unfold parseWebSocketFrame
  rw [if_neg (by simp)]
  simp only [List.getD_cons_zero, List.getD_cons_succ, hmod,
    eq_false (by omega : ¬(p.length = 126)), eq_false (by omega : ¬(p.length = 127)),
    eq_true (by omega : (128:Nat) ≤ 128 + p.length), if_true, if_false,
    hmask, hraw, applyMask_applyMask]

theorem parseWSF_masked_medium (b0 : Nat) (k p : List Nat) (hk : k.length = 4)
    (hp1 : 126 ≤ p.length) (hp2 : p.length < 65536) :
    parseWebSocketFrame
      (b0 :: 254 :: p.length / 256 :: p.length % 256 :: (k ++ applyMask k 0 p)) = some p := by
  have hlen : readUInt16BE
      (b0 :: 254 :: p.length / 256 :: p.length % 256 :: (k ++ applyMask k 0 p)) 2 =
      p.length := by
    show 256 * (p.length / 256) + p.length % 256 = p.length
    omega
  have hmask : bufSlice
      (b0 :: 254 :: p.length / 256 :: p.length % 256 :: (k ++ applyMask k 0 p)) 4 8 = k := by
    show (k ++ applyMask k 0 p).take 4 = k
    exact List.take_left' hk
  have hraw : bufSlice
      (b0 :: 254 :: p.length / 256 :: p.length % 256 :: (k ++ applyMask k 0 p)) 8
      (8 + p.length) = applyMask k 0 p := by
    show ((k ++ applyMask k 0 p).drop 4).take (8 + p.length - 8) = applyMask k 0 p
    rw [List.drop_left' hk]
    have h : 8 + p.length - 8 = (applyMask k 0 p).length := by
      rw [applyMask_length]; omega
    rw [h]
    exact @List.take_length _ _
  unfold parseWebSocketFrame
  rw [if_neg (by simp)]
  simp only [List.getD_cons_zero, List.getD_cons_succ,
    eq_true (by omega : (254:Nat) % 128 = 126),
    eq_true (by omega : (128:Nat) ≤ 254), if_true, if_false,
    hlen, hmask, hraw, applyMask_applyMask]

theorem parseWSF_masked_large (b0 : Nat) (k p : List Nat) (hk : k.length = 4)
    (hp1 : 65536 ≤ p.length) (hp2 : p.length < 4294967296) :
    parseWebSocketFrame (b0 :: 255 :: 0 :: 0 :: 0 :: 0 ::
        p.length / 16777216 % 256 :: p.length / 65536 % 256 ::
        p.length / 256 % 256 :: p.length % 256 :: (k ++ applyMask k 0 p)) = some p := by
  have hlen : readUInt32BE
      (b0 :: 255 :: 0 :: 0 :: 0 :: 0 ::
        p.length / 16777216 % 256 :: p.length / 65536 % 256 ::
        p.length / 256 % 256 :: p.length % 256 :: (k ++ applyMask k 0 p)) 6 =
      p.length := by
    show 16777216 * (p.length / 16777216 % 256) + 65536 * (p.length / 65536 % 256) +
      256 * (p.length / 256 % 256) + p.length % 256 = p.length
    omega
  have hmask : bufSlice
      (b0 :: 255 :: 0 :: 0 :: 0 :: 0 ::
        p.length / 16777216 % 256 :: p.length / 65536 % 256 ::
        p.length / 256 % 256 :: p.length % 256 :: (k ++ applyMask k 0 p)) 10 14 = k := by
    show (k ++ applyMask k 0 p).take 4 = k
    exact List.take_left' hk
  have hraw : bufSlice
      (b0 :: 255 :: 0 :: 0 :: 0 :: 0 ::
        p.length / 16777216 % 256 :: p.length / 65536 % 256 ::
        p.length / 256 % 256 :: p.length % 256 :: (k ++ applyMask k 0 p)) 14
      (14 + p.length) = applyMask k 0 p := by
    show ((k ++ applyMask k 0 p).drop 4).take (14 + p.length - 14) = applyMask k 0 p
    rw [List.drop_left' hk]
    have h : 14 + p.length - 14 = (applyMask k 0 p).length := by
      rw [applyMask_length]; omega
    rw [h]
    exact @List.take_length _ _
  unfold parseWebSocketFrame
  rw [if_neg (by simp)]
  simp only [List.getD_cons_zero, List.getD_cons_succ,
    eq_false (by omega : ¬(255:Nat) % 128 = 126),
    eq_true (by omega : (255:Nat) % 128 = 127),
    eq_true (by omega : (128:Nat) ≤ 255), if_true, if_false,
    hlen, hmask, hraw, applyMask_applyMask]

/-!  Claim theorems. -/

set_option maxRecDepth 100000

/-- C1: for the sample Sec-WebSocket-Key "dGhlIHNhbXBsZSBub25jZQ==", the
handshake accept-key computation (concatenate the key with the GUID
258EAFA5-E914-47DA-95CA-C5AB0DC85B11, SHA-1 the UTF-8 bytes,
base64-encode) returns exactly "s3pPLMBiTxaQ9kYGzzhZRbK+xOo=". -/
theorem C1_accept_key_sample :
    generateAcceptKey "dGhlIHNhbXBsZSBub25jZQ==" = "s3pPLMBiTxaQ9kYGzzhZRbK+xOo=" := by
  decide

/-- C2: for every payload of byte length in {0, 1, 125, 126, 65535,
65536}, encoding it with the frame encoder and then decoding the
produced bytes with the frame decoder, after setting the mask bit and
applying an arbitrary 4-byte mask to the payload as a client would,
yields back the original payload as a text message. -/
theorem C2_encode_decode_roundtrip (p k : List Nat) (hk : k.length = 4)
    (hL : p.length = 0 ∨ p.length = 1 ∨ p.length = 125 ∨ p.length = 126 ∨
          p.length = 65535 ∨ p.length = 65536) :
    parseFrame (setMaskAndKey (sendFrame p) k) = FrameAction.message p := by
  rw [setMaskAndKey_sendFrame, parseFrame_clientFrame 0x81 k p hk (by omega)]
  norm_num

theorem C2_encode_decode_roundtrip_witness :
    parseFrame (setMaskAndKey (sendFrame [104]) [7, 1, 255, 3]) =
      FrameAction.message [104] :=
  C2_encode_decode_roundtrip [104] [7, 1, 255, 3] (by decide) (by decide)

/-- C3: the code contradicts the claim.  The parser is stateless per
chunk, so a frame delivered one byte at a time returns early on every
call and the bytes are lost (the frame 0x81 0x05 ... is never decoded);
and a buffer holding a proper prefix of one frame (declared payload
length 5, only 3 payload bytes buffered) is not signalled incomplete
with zero bytes consumed but is dispatched as a truncated text
message "hel". -/
theorem C3_short_buffer_not_incomplete :
    parseFrame [0x81] = FrameAction.needMore ∧
    parseFrame [0x05] = FrameAction.needMore ∧
    parseFrame [104] = FrameAction.needMore ∧
    parseFrame [0x81, 0x05, 104, 101, 108] = FrameAction.message [104, 101, 108] := by
  decide

/-- C4: the code contradicts the claim.  For a frame whose 7-bit length
field is 127 and whose 8-byte extended length is 2^32 + 2 (bytes
00 00 00 01 00 00 00 02), the parser skips the high 4 bytes, takes the
payload length from the low 32 bits only (= 2), and silently dispatches
the 2-byte payload instead of raising a hard error. -/
theorem C4_length64_truncated_to_low32 :
    parseFrame [0x81, 0x7F, 0, 0, 0, 1, 0, 0, 0, 2, 65, 66] =
      FrameAction.message [65, 66] := by
  decide

/-- C5: the code contradicts the claim.  A complete frame with opcode
0x2 (binary, neither text 0x1 nor close 0x8) falls through both dispatch
branches of parseFrame: it is silently ignored, no close frame is
written and the connection is not failed. -/
theorem C5_unsupported_opcode_silently_ignored :
    parseFrame [0x82, 0x01, 0x41] = FrameAction.ignored := by
  decide

/-- C6: the code contradicts the claim.  For an upgrade request with no
Sec-WebSocket-Key header the constructor performs no check: it writes
the 101 Switching Protocols response (with an accept key computed from
the string "undefined") and transitions the connection to OPEN, instead
of failing the upgrade with a 400-class status. -/
theorem C6_missing_key_still_101_and_open :
    (simpleWebSocketHandshake none).2 = WSState.OPEN ∧
    (simpleWebSocketHandshake none).1.data.take 12 = "HTTP/1.1 101".data := by
  decide

/-- C7: for every outbound payload (of byte length below 2^32, the Node
buffer ceiling), the encoder emits byte 0 = 0x81 followed by the length
encoding of the claim — byte 1 = length if length < 126; byte 1 = 126
then a 2-byte big-endian length if 126 ≤ length < 65536; byte 1 = 127
then an 8-byte big-endian length otherwise — then the payload; in
particular sending "pong" emits exactly 0x81 0x04 'p' 'o' 'n' 'g'. -/
theorem C7_encoder_length_encoding (p : List Nat) (hp : p.length < 4294967296) :
    sendFrame p = 0x81 :: specLengthEncoding p.length ++ p ∧
    sendFrame [112, 111, 110, 103] = [0x81, 0x04, 112, 111, 110, 103] := by
  constructor
  · by_cases h1 : p.length < 126
    · simp [sendFrame, specLengthEncoding, h1]
    · by_cases h2 : p.length < 65536
      · simp [sendFrame, specLengthEncoding, h1, h2]
      · simp [sendFrame, specLengthEncoding, h1, h2]
        omega
  · decide

theorem C7_encoder_length_encoding_witness :
    sendFrame [112, 111, 110, 103] =
      0x81 :: specLengthEncoding ([112, 111, 110, 103] : List Nat).length ++
        [112, 111, 110, 103] ∧
    sendFrame [112, 111, 110, 103] = [0x81, 0x04, 112, 111, 110, 103] :=
  C7_encoder_length_encoding [112, 111, 110, 103] (by decide)

/-- C8: closing a connection that is not already CLOSED appends exactly
one two-byte close frame 0x88 0x00 to the socket writes, releases the
socket (end), reaches CLOSED, and a second close on the result is a
no-op performing no additional write. -/
theorem C8_close_writes_once_idempotent (c : Conn) (h : c.state ≠ WSState.CLOSED) :
    (close c).writes = c.writes ++ [[0x88, 0x00]] ∧
    (close c).state = WSState.CLOSED ∧
    (close c).ended = true ∧
    close (close c) = close c := by
  simp [close, h]

theorem C8_close_writes_once_idempotent_witness :
    (close ⟨WSState.OPEN, [], false⟩).writes = [] ++ [[0x88, 0x00]] ∧
    (close ⟨WSState.OPEN, [], false⟩).state = WSState.CLOSED ∧
    (close ⟨WSState.OPEN, [], false⟩).ended = true ∧
    close (close ⟨WSState.OPEN, [], false⟩) = close ⟨WSState.OPEN, [], false⟩ :=
  C8_close_writes_once_idempotent ⟨WSState.OPEN, [], false⟩ (by decide)

/-- C9: for every connection whose state is not OPEN, send is a no-op:
the connection (its state, its writes, its socket) is returned
unchanged and no bytes are written. -/
theorem C9_send_not_open_noop (c : Conn) (data : List Nat)
    (h : c.state ≠ WSState.OPEN) :
    send c data = c := by
  simp [send, h]

theorem C9_send_not_open_noop_witness :
    send ⟨WSState.CLOSED, [], true⟩ [112, 111, 110, 103] =
      (⟨WSState.CLOSED, [], true⟩ : Conn) :=
  C9_send_not_open_noop ⟨WSState.CLOSED, [], true⟩ [112, 111, 110, 103] (by decide)

/-- C10: the keti-unified parser never consults the decoded opcode: for
every complete masked client frame, whatever the first byte b0 (hence
whatever the opcode b0 % 16, including close 0x8 and unsupported
opcodes), parseWebSocketFrame returns the unmasked payload as an
ordinary message (`some`), and its result type has no close outcome at
all, so the decoder never triggers a close sequence. -/
theorem C10_unified_ignores_opcode (b0 : Nat) (k p : List Nat)
    (hk : k.length = 4) (hp : p.length < 4294967296) :
    parseWebSocketFrame (clientFrame b0 k p) = some p := by
  by_cases h1 : p.length < 126
  · have hshape : clientFrame b0 k p = b0 :: (128 + p.length) :: (k ++ applyMask k 0 p) := by
      simp [clientFrame, h1]
    rw [hshape]
    exact parseWSF_masked_small b0 k p hk h1
  · by_cases h2 : p.length < 65536
    · have hshape : clientFrame b0 k p =
          b0 :: 254 :: p.length / 256 :: p.length % 256 :: (k ++ applyMask k 0 p) := by
        simp [clientFrame, h1, h2]
      rw [hshape]
      exact parseWSF_masked_medium b0 k p hk (by omega) h2
    · have hshape : clientFrame b0 k p =
          b0 :: 255 :: 0 :: 0 :: 0 :: 0 ::
            p.length / 16777216 % 256 :: p.length / 65536 % 256 ::
            p.length / 256 % 256 :: p.length % 256 :: (k ++ applyMask k 0 p) := by
        simp [clientFrame, h1, h2]
      rw [hshape]
      exact parseWSF_masked_large b0 k p hk (by omega) hp

theorem C10_unified_ignores_opcode_witness :
    parseWebSocketFrame (clientFrame 0x88 [1, 2, 3, 4] [65]) = some [65] :=
  C10_unified_ignores_opcode 0x88 [1, 2, 3, 4] [65] (by decide) (by decide)

end WS

